import Mathlib

/-!
# Verification of the chappy_AI realtime session controller

A shallow embedding of the session protocol state machine implemented in
`src/realtime/openai_realtime_client.py` and of the calendar client in
`src/calendar/google_calendar_client.py`, together with theorems settling
the specification claims about them.

Modelling conventions:
* monotonic timestamps and second-valued thresholds are exact rationals;
* PCM16 frames are lists of integer samples (the byte buffer of a frame of
  `L` samples has `2·L` bytes; the claims speak in samples);
* the outbound wire is the list of JSON payloads that reach the websocket
  `send` call (`_send_json` drops the payload when no connection is open,
  which the embedding reproduces via the `wsOpen` flag);
* calendar memory storage (a Python insertion-ordered dict) is a list of
  `(event_id, event)` pairs where assignment to an existing key replaces in
  place and a new key is appended.
-/

namespace ChappyAI

/-- Outbound JSON payloads produced by `RealtimeSession`.  Audio payloads
carry the (resampled) sample list rather than its base64 encoding. -/
inductive OutMsg where
  | sessionUpdate : OutMsg
  | inputAudioAppend (samples : List Int) : OutMsg
  | inputAudioCommit : OutMsg
  | responseCreate : OutMsg
  | responseCancel : OutMsg
  | conversationItemCreateText (text : String) : OutMsg
  deriving Repr, DecidableEq

/-- Inbound server events handled by `RealtimeSession._handle_event`.
Audio deltas carry the decoded byte payload; `hasAudio` is false when the
event had no / an empty `audio`/`delta` field (a falsy `audio_base64`). -/
inductive InEvent where
  | speechStarted : InEvent
  | speechStopped : InEvent
  | committed : InEvent
  | responseCreated : InEvent
  | responseDone : InEvent
  | textDelta (text : String) : InEvent
  | audioTranscriptDelta (text : String) : InEvent
  | audioTranscriptDone (text : String) : InEvent
  | audioDelta (chunk : List Nat) : InEvent
  | errorEvent : InEvent
  | unknown (eventType : String) : InEvent
  deriving Repr, DecidableEq

/-- The session-relevant part of `AppConfig` plus the constants fixed in
`RealtimeSession.__init__`. -/
structure SessionConfig where
  /-- `config.audio.sample_rate`, the input sample rate. -/
  audioSampleRate : Nat
  /-- `self._target_sample_rate = 24_000`. -/
  targetSampleRate : Nat := 24000
  /-- `config.realtime.silence_timeout_sec`. -/
  silenceTimeoutSec : ℚ
  /-- `self._force_commit_after_sec = 2.0`. -/
  forceCommitAfterSec : ℚ := 2
  deriving Repr, DecidableEq

/-- The mutable state of a `RealtimeSession` that the claims are about. -/
structure SessionState where
  /-- `self._running`. -/
  running : Bool
  /-- `self._ws is not None`: an open websocket connection. -/
  wsOpen : Bool
  /-- `self._ai_is_responding`. -/
  responding : Bool
  /-- `self._is_playing`. -/
  playing : Bool
  /-- `self._audio_queue` contents, oldest first. -/
  audioQueue : List (List Nat)
  /-- `self._last_audio_activity` (None until first set). -/
  lastAudioActivity : Option ℚ
  /-- `self._state.last_activity_at`. -/
  stateLastActivityAt : ℚ
  /-- `self._speech_started_at` (None when no utterance in progress). -/
  speechStartedAt : Option ℚ
  /-- `self._vad is not None`. -/
  hasVad : Bool
  /-- `self._output is not None`. -/
  hasOutput : Bool
  deriving Repr, DecidableEq

/-- `RealtimeSession._send_json`: the payload reaches the wire only when a
connection is open (`if not self._ws: return`). -/
def sendJson (wsOpen : Bool) (payload : OutMsg) : List OutMsg :=
  if wsOpen then [payload] else []

/-- `RealtimeSession.stream_text`: sends a `conversation.item.create` with
the text followed by a `response.create`, unconditionally. -/
def streamText (wsOpen : Bool) (text : String) : List OutMsg :=
  sendJson wsOpen (OutMsg.conversationItemCreateText text) ++
    sendJson wsOpen OutMsg.responseCreate

/-- `RealtimeSession._send_response_create`. -/
def sendResponseCreate (wsOpen : Bool) : List OutMsg :=
  sendJson wsOpen OutMsg.responseCreate

/-- `RealtimeSession._handle_event`, restricted to its state changes and
sends.  `now` is the value `time.monotonic()` returns during the call. -/
def handleEvent (s : SessionState) (now : ℚ) : InEvent → SessionState × List OutMsg
  | InEvent.speechStarted =>
      ({ s with speechStartedAt := some now
                lastAudioActivity := some now
                audioQueue := [] },
       if s.responding then sendJson s.wsOpen OutMsg.responseCancel else [])
  | InEvent.speechStopped =>
      ({ s with speechStartedAt := none, lastAudioActivity := some now }, [])
  | InEvent.committed =>
      ({ s with speechStartedAt := none, lastAudioActivity := some now },
       sendResponseCreate s.wsOpen)
  | InEvent.responseCreated =>
      ({ s with responding := true }, [])
  | InEvent.responseDone =>
      ({ s with responding := false, lastAudioActivity := some now }, [])
  | InEvent.textDelta _ => (s, [])
  | InEvent.audioTranscriptDelta _ => (s, [])
  | InEvent.audioTranscriptDone _ => (s, [])
  | InEvent.audioDelta chunk =>
      (if chunk ≠ [] ∧ s.hasOutput then
        { s with audioQueue := s.audioQueue ++ [chunk] }
       else s, [])
  | InEvent.errorEvent => (s, [])
  | InEvent.unknown _ => (s, [])

/-- One iteration of `RealtimeSession._silence_monitor_loop`: after the
1-second sleep the loop body clears `running` exactly when the activity
timestamp is set, the AI is not responding, nothing is playing, the
playback queue is empty, and the elapsed silence exceeds the timeout.
When `running` is already false the loop has exited and nothing happens. -/
def silenceMonitorTick (cfg : SessionConfig) (s : SessionState) (now : ℚ) :
    SessionState :=
  if s.running then
    match s.lastAudioActivity with
    | some t =>
        if ¬s.responding ∧ ¬s.playing ∧ s.audioQueue = [] ∧
            cfg.silenceTimeoutSec < now - t then
          { s with running := false }
        else s
    | none => s
  else s

/-! ## Resampling (`RealtimeSession._resample_if_needed`) -/

/-- C-style conversion of a float to an integer (numpy `astype(np.int16)` on
values already inside the int16 range): truncation toward zero. -/
def ratTruncToInt (q : ℚ) : Int :=
  if 0 ≤ q then q.floor else -((-q).floor)

/-- `np.interp` evaluated at position `v` against `x = 0, …, len-1` and
values `data`: linear interpolation between the two neighbouring samples,
clamped to the last sample at the right edge. -/
def interpAt (data : List Int) (v : ℚ) : ℚ :=
  let j := v.floor.toNat
  match data[j]?, data[j + 1]? with
  | some a, some b => (a : ℚ) + (v - (j : ℚ)) * ((b : ℚ) - (a : ℚ))
  | some a, none => (a : ℚ)
  | none, _ => 0

/-- Position `i` of `np.linspace 0 (L - 1) n`. -/
def linspacePos (L n i : Nat) : ℚ :=
  if n ≤ 1 then 0 else (i : ℚ) * ((L : ℚ) - 1) / ((n : ℚ) - 1)

/-- `RealtimeSession._resample_if_needed` on a frame of int16 samples.
Equal rates return the frame unchanged; otherwise the destination length is
`int(len(data) * ratio)` (truncation, here exact: `⌊L·R2/R1⌋`), a
non-positive destination length returns the frame unchanged, and otherwise
the samples are linearly interpolated at the linspace positions. -/
def resampleIfNeeded (srcRate dstRate : Nat) (frame : List Int) : List Int :=
  if srcRate = dstRate then frame
  else
    let dstLen := frame.length * dstRate / srcRate
    if dstLen = 0 then frame
    else (List.range dstLen).map
      (fun i => ratTruncToInt (interpAt frame (linspacePos frame.length dstLen i)))

/-! ## The audio-feed path (`ingest_audio_frame`, `_append_audio`,
one iteration of `_run_audio_loop`) -/

/-- `RealtimeSession.ingest_audio_frame`: returns immediately when no VAD is
configured; otherwise feeds the frame to the VAD (an external collaborator,
outside the session state) and updates `self._state.last_activity_at`. -/
def ingestAudioFrame (s : SessionState) (now : ℚ) : SessionState :=
  if s.hasVad then { s with stateLastActivityAt := now } else s

/-- `RealtimeSession._append_audio`: drops empty frames, otherwise sends the
resampled frame as an `input_audio_buffer.append` payload. -/
def appendAudio (cfg : SessionConfig) (wsOpen : Bool) (frame : List Int) :
    List OutMsg :=
  if frame = [] then []
  else sendJson wsOpen
    (OutMsg.inputAudioAppend
      (resampleIfNeeded cfg.audioSampleRate cfg.targetSampleRate frame))

/-- One iteration of the `async for` body of `RealtimeSession._run_audio_loop`:
when `running` is already false the loop breaks; otherwise the frame goes
through `ingest_audio_frame` and `_append_audio`, and an overlong utterance
is force-committed. -/
def audioLoopStep (cfg : SessionConfig) (s : SessionState) (now : ℚ)
    (frame : List Int) : SessionState × List OutMsg :=
  if s.running then
    let s1 := ingestAudioFrame s now
    let appendMsgs := appendAudio cfg s1.wsOpen frame
    match s1.speechStartedAt with
    | some t0 =>
        if cfg.forceCommitAfterSec < now - t0 then
          ({ s1 with speechStartedAt := none },
           appendMsgs ++ sendJson s1.wsOpen OutMsg.inputAudioCommit)
        else (s1, appendMsgs)
    | none => (s1, appendMsgs)
  else (s, [])

/-! ## `RealtimeSession.close` -/

/-- Which awaited teardown step of `close()` raises when it is executed.
(`await self._recv_task` etc. suppress only `CancelledError`; any other
exception propagates out of `close()`.) -/
structure CloseFailures where
  recvAwaitRaises : Bool
  monitorAwaitRaises : Bool
  wsCloseRaises : Bool
  playerAwaitRaises : Bool
  outputCloseRaises : Bool
  deriving Repr, DecidableEq

/-- The sub-resources `close()` tears down, plus the `running` flag.
`outputAttached` is `self._output is not None` (never reset by `close`);
`outputOpen` is whether the output stream is currently open. -/
structure Resources where
  recvTask : Bool
  monitorTask : Bool
  wsConn : Bool
  playerTask : Bool
  outputAttached : Bool
  outputOpen : Bool
  running : Bool
  deriving Repr, DecidableEq

/-- `RealtimeSession.close()`: cancels and awaits the receive task, cancels
and awaits the silence monitor task, closes the websocket, cancels and
awaits the player task, closes the output stream, and finally clears
`running`.  The steps run sequentially with no `try`/`finally`: a step that
raises aborts `close()` there, skipping every later step (the already-issued
`cancel()` notwithstanding, the attribute of the failing step is not reset).
Returns the resulting resource state and whether an exception escaped. -/
def closeSession (f : CloseFailures) (r : Resources) : Resources × Bool :=
  if r.recvTask ∧ f.recvAwaitRaises then (r, true) else
  let r1 := { r with recvTask := false }
  if r1.monitorTask ∧ f.monitorAwaitRaises then (r1, true) else
  let r2 := { r1 with monitorTask := false }
  if r2.wsConn ∧ f.wsCloseRaises then (r2, true) else
  let r3 := { r2 with wsConn := false }
  if r3.playerTask ∧ f.playerAwaitRaises then (r3, true) else
  let r4 := { r3 with playerTask := false }
  if r4.outputAttached ∧ r4.outputOpen ∧ f.outputCloseRaises then (r4, true) else
  let r5 := if r4.outputAttached then { r4 with outputOpen := false } else r4
  ({ r5 with running := false }, false)

/-- The `CloseFailures` oracle under which every teardown step succeeds. -/
def noCloseFailures : CloseFailures :=
  { recvAwaitRaises := false, monitorAwaitRaises := false, wsCloseRaises := false
    playerAwaitRaises := false, outputCloseRaises := false }

/-! ## Calendar client (`GoogleCalendarClient`, in-memory fallback)

The claims exercise the client without Google credentials
(`self._service is None`), the configuration used by this repository's
tests; timestamps are minutes since the Unix epoch (UTC). -/

/-- `config.calendar.reminder_minutes_default`. -/
structure CalendarConfig where
  reminderMinutesDefault : Int
  deriving Repr, DecidableEq

/-- `CalendarEvent` (times in minutes since the epoch; `endTime` is the
dataclass field `end`). -/
structure CalendarEvent where
  title : String
  start : Int
  endTime : Int
  reminderMinutes : Int
  eventId : Nat
  deriving Repr, DecidableEq

/-- `self._memory_events`: a Python insertion-ordered dict keyed by
`event_id`. -/
abbrev MemoryEvents := List (Nat × CalendarEvent)

/-- Python dict assignment `d[k] = v`: replaces in place if the key exists,
appends otherwise. -/
def dictInsert (m : MemoryEvents) (k : Nat) (v : CalendarEvent) : MemoryEvents :=
  match m with
  | [] => [(k, v)]
  | (k0, v0) :: rest =>
      if k0 = k then (k, v) :: rest else (k0, v0) :: dictInsert rest k v

/-- Python `d.get(k)` / `k in d` combined. -/
def dictLookup (m : MemoryEvents) (k : Nat) : Option CalendarEvent :=
  match m with
  | [] => none
  | (k0, v0) :: rest => if k0 = k then some v0 else dictLookup rest k

/-- Python `d.pop(k)` on a present key (absent keys leave the dict as is). -/
def dictRemove (m : MemoryEvents) (k : Nat) : MemoryEvents :=
  match m with
  | [] => []
  | (k0, v0) :: rest => if k0 = k then rest else (k0, v0) :: dictRemove rest k

/-- `GoogleCalendarClient.upsert_event` (in-memory branch): the reminder is
`reminder_override or default` — Python truthiness, so both `None` and `0`
fall back to the configured default — the end time is
`start + timedelta(minutes=duration_minutes)`, and the event is stored
under its `event_id` (a fresh timestamp string in the source, passed here
as an explicit identifier). -/
def upsertEvent (cfg : CalendarConfig) (mem : MemoryEvents) (title : String)
    (start : Int) (durationMinutes : Int) (reminderOverride : Option Int)
    (eventId : Nat) : MemoryEvents × CalendarEvent :=
  let reminder := match reminderOverride with
    | some r => if r = 0 then cfg.reminderMinutesDefault else r
    | none => cfg.reminderMinutesDefault
  let ev : CalendarEvent :=
    { title := title, start := start, endTime := start + durationMinutes
      reminderMinutes := reminder, eventId := eventId }
  (dictInsert mem ev.eventId ev, ev)

/-- `GoogleCalendarClient.delete_event` (in-memory branch): removes the
entry when the id is present, otherwise leaves the store unchanged. -/
def deleteEvent (mem : MemoryEvents) (eventId : Nat) : MemoryEvents :=
  dictRemove mem eventId

/-- `GoogleCalendarClient.list_upcoming` (in-memory branch): every stored
event starting at or after the reference time. -/
def listUpcoming (mem : MemoryEvents) (now : Int) : List CalendarEvent :=
  (mem.map Prod.snd).filter (fun ev => decide (now ≤ ev.start))

/-- Modelled from the spec: `GoogleCalendarClient.find_event_by_title` is
called by `_handle_delete_call` but lives in the `src/gcal` module that is
absent from the source tree.  Spec: "look up by exact title match; first
match wins if duplicates exist". -/
def findEventByTitle (mem : MemoryEvents) (title : String) :
    Option CalendarEvent :=
  match mem with
  | [] => none
  | (_, v) :: rest =>
      if v.title = title then some v else findEventByTitle rest title

/-- Modelled from the spec: `GoogleCalendarClient.list_events(start, end)`
is called by `_handle_list_call` but lives in the absent `src/gcal` module.
Spec contract `listInRange(start, end) -> [Event]`, read back "ordered by
start time": the stored events with start inside the half-open window,
sorted by start. -/
def listEventsInRange (mem : MemoryEvents) (a b : Int) : List CalendarEvent :=
  ((mem.map Prod.snd).filter
    (fun ev => decide (a ≤ ev.start) && decide (ev.start < b))).mergeSort
    (fun x y => decide (x.start ≤ y.start))

/-! ## Tool dispatcher (`_handle_reminder_call`, `_handle_delete_call`,
`_handle_list_call`)

Each handler returns the new calendar memory (where it mutates it) and the
list of utterances streamed back through `stream_text`. -/

/-- Gregorian leap year (`calendar.isleap` as used by `datetime`). -/
def isLeapYear (y : Nat) : Bool :=
  (y % 4 = 0 && y % 100 ≠ 0) || y % 400 = 0

/-- Days in a month of the proleptic Gregorian calendar. -/
def daysInMonth (y m : Nat) : Nat :=
  if m = 2 then (if isLeapYear y then 29 else 28)
  else if m = 4 ∨ m = 6 ∨ m = 9 ∨ m = 11 then 30
  else 31

/-- Split a character list at every dash (the list-level counterpart of
`"...".split("-")`; the empty input yields one empty group). -/
def splitOnDash (cs : List Char) : List (List Char) :=
  match cs with
  | [] => [[]]
  | c :: rest =>
      let r := splitOnDash rest
      if c = '-' then [] :: r
      else
        match r with
        | [] => [[c]]
        | g :: gs => (c :: g) :: gs

/-- A non-empty all-digit group read as a decimal number. -/
def digitsToNat (cs : List Char) : Option Nat :=
  if cs = [] then none
  else if cs.all Char.isDigit then
    some (cs.foldl (fun acc c => acc * 10 + (c.toNat - 48)) 0)
  else none

/-- `datetime.strptime(s, "%Y-%m-%d")` as a total parser: exactly four
digits of year (at least 0001), one or two digits of month in 1..12, one or
two digits of day valid for that month, joined by literal dashes with the
whole string consumed.  Failure (Python `ValueError`) is `none`. -/
def parseDateYMD (s : String) : Option (Nat × Nat × Nat) :=
  match splitOnDash s.toList with
  | [ys, ms, ds] =>
      match digitsToNat ys, digitsToNat ms, digitsToNat ds with
      | some y, some m, some d =>
          if ys.length = 4 ∧ 1 ≤ y ∧
              (ms.length = 1 ∨ ms.length = 2) ∧ 1 ≤ m ∧ m ≤ 12 ∧
              (ds.length = 1 ∨ ds.length = 2) ∧ 1 ≤ d ∧ d ≤ daysInMonth y m
          then some (y, m, d) else none
      | _, _, _ => none
  | _ => none

/-- Days since 1970-01-01 of a Gregorian civil date (`y ≥ 1` here, so all
divisions act on non-negative values). -/
def daysFromCivil (y m d : Int) : Int :=
  let y2 := if m ≤ 2 then y - 1 else y
  let era := (if 0 ≤ y2 then y2 else y2 - 399) / 400
  let yoe := y2 - era * 400
  let mp := (m + 9) % 12
  let doy := (153 * mp + 2) / 5 + d - 1
  let doe := yoe * 365 + yoe / 4 - yoe / 100 + doy
  era * 146097 + doe - 719468

/-- `start.strftime("%H:%M")` for a timestamp in minutes since midnight of
some epoch day. -/
def formatHM (t : Int) : String :=
  let mins := (t.emod 1440).toNat
  (if mins / 60 < 10 then "0" ++ toString (mins / 60) else toString (mins / 60))
    ++ ":" ++
    (if mins % 60 < 10 then "0" ++ toString (mins % 60) else toString (mins % 60))

/-- The message `_handle_list_call` formats from the events it read back. -/
def listMessage (dateStr : String) (events : List CalendarEvent) : String :=
  if events = [] then dateStr ++ "の予定はありません。"
  else dateStr ++ "の予定は" ++ toString events.length ++ "件あります。\n" ++
    String.intercalate "\n"
      (events.map (fun e => formatHM e.start ++ " " ++ e.title))

/-- `RealtimeSession._handle_reminder_call`: upserts the event (default
duration, reminder override from the arguments) and streams exactly one
confirmation utterance echoing the stored title. -/
def handleReminderCall (cfg : CalendarConfig) (mem : MemoryEvents)
    (title : String) (scheduledAt : Int) (remindBeforeMinutes : Option Int)
    (eventId : Nat) : MemoryEvents × List String :=
  let r := upsertEvent cfg mem title scheduledAt 30 remindBeforeMinutes eventId
  (r.1, ["予定「" ++ r.2.title ++ "」を登録しました。"])

/-- `RealtimeSession._handle_delete_call`: looks the title up; on a match
deletes that event and confirms, otherwise streams a not-found utterance
and leaves the calendar untouched. -/
def handleDeleteCall (mem : MemoryEvents) (title : String) :
    MemoryEvents × List String :=
  match findEventByTitle mem title with
  | some ev =>
      (deleteEvent mem ev.eventId, ["予定「" ++ ev.title ++ "」を削除しました。"])
  | none => (mem, ["予定「" ++ title ++ "」が見つかりませんでした。"])

/-- The calendar queries `_handle_list_call` can perform. -/
inductive CalQuery where
  | range (a b : Int) : CalQuery
  | upcoming : CalQuery
  deriving Repr, DecidableEq

/-- `RealtimeSession._handle_list_call`: `if args.date:` is Python
truthiness, so `None` and the empty string both take the upcoming branch; a
non-empty date is parsed as `%Y-%m-%d`, a parse failure streams the
format-error utterance without querying the calendar, and a parsed date
queries the one-day window starting at its midnight.  Returns the queries
performed and the utterances streamed. -/
def handleListCall (mem : MemoryEvents) (now : Int) (dateArg : Option String) :
    List CalQuery × List String :=
  match dateArg with
  | some d =>
      if d = "" then
        ([CalQuery.upcoming], [listMessage "今後" (listUpcoming mem now)])
      else
        match parseDateYMD d with
        | some (y, m, dd) =>
            let startT := daysFromCivil (y : Int) (m : Int) (dd : Int) * 1440
            let endT := startT + 1440
            ([CalQuery.range startT endT],
             [listMessage d (listEventsInRange mem startT endT)])
        | none => ([], ["日付の形式が正しくありません。"])
  | none => ([CalQuery.upcoming], [listMessage "今後" (listUpcoming mem now)])

/-! ## Shared concrete states for witnesses and counterexamples -/

/-- The state of a freshly opened, connected session
(`__init__` plus `__aenter__` with `start_connection=True`), with the
started-at clock at `t0`. -/
def initialSessionState (t0 : ℚ) : SessionState :=
  { running := true, wsOpen := true, responding := false, playing := false
    audioQueue := [], lastAudioActivity := none, stateLastActivityAt := t0
    speechStartedAt := none, hasVad := true, hasOutput := true }

/-! ## Theorems -/

/-- **C1.** A silence-monitor tick leaves `running` cleared exactly when it
already was cleared or all five firing conditions hold (activity timestamp
set, not responding, not playing, playback queue empty, elapsed silence
strictly above the threshold); in particular a tick taken while
`responding` or `playing` is true never changes `running`, however stale
the activity timestamp. -/
theorem silence_monitor_fires_only_when_idle (cfg : SessionConfig)
    (s : SessionState) (now : ℚ) :
    ((silenceMonitorTick cfg s now).running = false ↔
      (s.running = false ∨
        ∃ t, s.lastAudioActivity = some t ∧ s.responding = false ∧
          s.playing = false ∧ s.audioQueue = [] ∧
          cfg.silenceTimeoutSec < now - t)) ∧
    ((s.responding = true ∨ s.playing = true) →
      (silenceMonitorTick cfg s now).running = s.running) := by
  constructor
  · cases hrun : s.running with
    | false =>
      have hs : silenceMonitorTick cfg s now = s := by
        unfold silenceMonitorTick; rw [hrun]; simp
      rw [hs, hrun]; simp
    | true =>
      cases hact : s.lastAudioActivity with
      | none =>
        have hs : silenceMonitorTick cfg s now = s := by
          unfold silenceMonitorTick; rw [hrun, hact]; simp
        rw [hs, hrun]
        simp [hact]
      | some t =>
        by_cases hcond : ¬s.responding = true ∧ ¬s.playing = true ∧
            s.audioQueue = [] ∧ cfg.silenceTimeoutSec < now - t
        · have hs : silenceMonitorTick cfg s now = { s with running := false } := by
            unfold silenceMonitorTick; rw [hrun, hact]; simp only [if_pos hcond]; simp
          rw [hs]
          constructor
          · intro _
            exact Or.inr ⟨t, rfl, by simpa using hcond.1, by simpa using hcond.2.1,
              hcond.2.2.1, hcond.2.2.2⟩
          · intro _; rfl
        · have hs : silenceMonitorTick cfg s now = s := by
            unfold silenceMonitorTick; rw [hrun, hact]; simp only [if_neg hcond]; simp
          rw [hs, hrun]
          constructor
          · intro hfalse; exact absurd hfalse (by simp)
          · rintro (hfalse | ⟨t', ht', hresp, hplay, hq, hsil⟩)
            · exact absurd hfalse (by simp)
            · injection ht' with ht2
              subst ht2
              exact absurd ⟨by simp [hresp], by simp [hplay], hq, hsil⟩ hcond
  · intro hbusy
    have hcond : ∀ t, ¬(¬s.responding = true ∧ ¬s.playing = true ∧
        s.audioQueue = [] ∧ cfg.silenceTimeoutSec < now - t) := by
      intro t hc
      rcases hbusy with h | h
      · exact hc.1 h
      · exact hc.2.1 h
    cases hrun : s.running with
    | false =>
      have hs : silenceMonitorTick cfg s now = s := by
        unfold silenceMonitorTick; rw [hrun]; simp
      rw [hs]; exact hrun
    | true =>
      cases hact : s.lastAudioActivity with
      | none =>
        have hs : silenceMonitorTick cfg s now = s := by
          unfold silenceMonitorTick; rw [hrun, hact]; simp
        rw [hs]; exact hrun
      | some t =>
        have hs : silenceMonitorTick cfg s now = s := by
          unfold silenceMonitorTick; rw [hrun, hact]
          simp only [if_neg (hcond t)]; simp
        rw [hs]; exact hrun

/-- **C2.** Handling a speech-started event always leaves the playback
queue empty, whatever it held before, and (on an open connection, the only
case in which anything can be sent) a `response.cancel` payload is sent if
and only if a response was in flight. -/
theorem speech_started_flushes_and_cancels_iff_responding (s : SessionState)
    (now : ℚ) (hws : s.wsOpen = true) :
    (handleEvent s now InEvent.speechStarted).1.audioQueue = [] ∧
    (OutMsg.responseCancel ∈ (handleEvent s now InEvent.speechStarted).2 ↔
      s.responding = true) := by
  refine ⟨rfl, ?_⟩
  unfold handleEvent
  cases hresp : s.responding <;> simp [sendJson, hws, hresp]

/-- Witness for C2: a connected session with two queued chunks and a
response in flight. -/
theorem speech_started_flushes_witness :
    (handleEvent { initialSessionState 0 with
        responding := true, audioQueue := [[1], [2, 3]] } 7
      InEvent.speechStarted).1.audioQueue = [] ∧
    (OutMsg.responseCancel ∈ (handleEvent { initialSessionState 0 with
        responding := true, audioQueue := [[1], [2, 3]] } 7
      InEvent.speechStarted).2 ↔
      ({ initialSessionState 0 with
        responding := true, audioQueue := [[1], [2, 3]] } : SessionState).responding = true) :=
  speech_started_flushes_and_cancels_iff_responding
    { initialSessionState 0 with responding := true, audioQueue := [[1], [2, 3]] } 7 rfl

/-- **C3 counterexample.** From a fresh connected session, a
`response.created` event makes `responding = true` — a reachable state —
and handling a subsequent `input_audio_buffer.committed` event in that
state nonetheless sends `response.create`: the controller does not guard
`response.create` on `responding`. -/
theorem response_create_sent_while_responding :
    ((handleEvent (initialSessionState 0) 1 InEvent.responseCreated).1.responding = true) ∧
    OutMsg.responseCreate ∈
      (handleEvent (handleEvent (initialSessionState 0) 1 InEvent.responseCreated).1 2
        InEvent.committed).2 := by
  constructor
  · rfl
  · simp [handleEvent, sendResponseCreate, sendJson, initialSessionState]

/-- **C3 amended.** On an open connection the controller sends
`response.create` unconditionally: handling a committed input emits exactly
one `response.create` whatever the `responding` flag says, and the outbound
text path (`stream_text`, used for tool-dispatch confirmations) likewise
always ends with a `response.create`. -/
theorem response_create_unconditional (s : SessionState) (now : ℚ)
    (hws : s.wsOpen = true) :
    (handleEvent s now InEvent.committed).2 = [OutMsg.responseCreate] ∧
    ∀ text, streamText s.wsOpen text =
      [OutMsg.conversationItemCreateText text, OutMsg.responseCreate] := by
  constructor
  · simp [handleEvent, sendResponseCreate, sendJson, hws]
  · intro text; simp [streamText, sendJson, hws]

/-- Witness for the amended C3: a connected session with a response already
in flight still gets `response.create` sent at it. -/
theorem response_create_unconditional_witness :
    (handleEvent { initialSessionState 0 with responding := true } 2
      InEvent.committed).2 = [OutMsg.responseCreate] ∧
    ∀ text, streamText ({ initialSessionState 0 with
        responding := true } : SessionState).wsOpen text =
      [OutMsg.conversationItemCreateText text, OutMsg.responseCreate] :=
  response_create_unconditional
    { initialSessionState 0 with responding := true } 2 rfl

/-- A small concrete configuration for witnesses: 16 kHz input audio, a
30-second silence timeout. -/
def cfg16k : SessionConfig := { audioSampleRate := 16000, silenceTimeoutSec := 30 }

/-- A one-event calendar store shared by witnesses. -/
def sampleMem : MemoryEvents :=
  [(1, { title := "会議", start := 100, endTime := 130, reminderMinutes := 10
         eventId := 1 })]

/-- Witness for C1: with a response in flight and the activity timestamp
1000 seconds stale (far past the 30-second timeout), a tick does not
terminate the session. -/
theorem silence_monitor_busy_witness :
    (silenceMonitorTick cfg16k
        { initialSessionState 0 with responding := true, lastAudioActivity := some 0 }
        1000).running =
      ({ initialSessionState 0 with
          responding := true, lastAudioActivity := some 0 } : SessionState).running :=
  (silence_monitor_fires_only_when_idle cfg16k
    { initialSessionState 0 with responding := true, lastAudioActivity := some 0 }
    1000).2 (Or.inl rfl)

/-- **C4 counterexample.** A one-sample frame resampled from 16 kHz to
24 kHz keeps length 1, but `round(1·24000/16000) = round(1.5) = 2`: the
code truncates the destination length, it does not round it. -/
theorem resample_length_truncates_not_rounds :
    (resampleIfNeeded 16000 24000 [0]).length = 1 ∧
    round (((1 : ℚ) * 24000) / 16000) = 2 :=
  ⟨rfl, by norm_num [round_eq]⟩

/-- **C4 amended.** Resampling at equal rates is the identity; at distinct
rates the output length is the truncation `⌊L·R2/R1⌋` when that is
positive, and the frame comes back unchanged when it is zero. -/
theorem resample_identity_and_floor_length (srcRate dstRate : Nat)
    (frame : List Int) :
    (srcRate = dstRate → resampleIfNeeded srcRate dstRate frame = frame) ∧
    (srcRate ≠ dstRate → frame.length * dstRate / srcRate = 0 →
      resampleIfNeeded srcRate dstRate frame = frame) ∧
    (srcRate ≠ dstRate → 0 < frame.length * dstRate / srcRate →
      (resampleIfNeeded srcRate dstRate frame).length =
        frame.length * dstRate / srcRate) := by
  refine ⟨fun h => by simp [resampleIfNeeded, h], fun h h0 => ?_, fun h h0 => ?_⟩
  · unfold resampleIfNeeded
    rw [if_neg h, if_pos h0]
  · unfold resampleIfNeeded
    rw [if_neg h, if_neg (by omega)]
    simp

/-- Witness for the amended C4: two samples at 16 kHz resample to
`⌊2·24000/16000⌋ = 3` samples at 24 kHz. -/
theorem resample_floor_length_witness :
    (resampleIfNeeded 16000 24000 [0, 0]).length =
      ([0, 0] : List Int).length * 24000 / 16000 :=
  (resample_identity_and_floor_length 16000 24000 [0, 0]).2.2
    (by decide) (by decide)

/-- **C5 counterexample.** An audio-loop iteration on a running, connected
session that has no VAD, fed the empty frame at time 5, sends no message at
all and leaves the last-activity timestamp at its old value 0 ≠ 5: the
ingestion path neither always appends nor always touches the timestamp. -/
theorem ingest_empty_frame_no_append_no_activity :
    (audioLoopStep cfg16k { initialSessionState 0 with hasVad := false } 5 []).2
      = [] ∧
    (audioLoopStep cfg16k { initialSessionState 0 with hasVad := false } 5
      []).1.stateLastActivityAt = 0 ∧
    (0 : ℚ) ≠ 5 :=
  ⟨rfl, rfl, by norm_num⟩

/-- **C5 amended.** On a running, connected session with a VAD configured,
every non-empty frame is resampled to the protocol rate and sent as an
`input_audio_buffer.append` payload, and the session's last-activity
timestamp is set to the current time. -/
theorem audio_step_appends_and_updates_activity (cfg : SessionConfig)
    (s : SessionState) (now : ℚ) (frame : List Int) (hrun : s.running = true)
    (hvad : s.hasVad = true) (hws : s.wsOpen = true) (hne : frame ≠ []) :
    OutMsg.inputAudioAppend
        (resampleIfNeeded cfg.audioSampleRate cfg.targetSampleRate frame) ∈
      (audioLoopStep cfg s now frame).2 ∧
    (audioLoopStep cfg s now frame).1.stateLastActivityAt = now := by
  unfold audioLoopStep
  rw [hrun]
  simp only [if_true]
  have hing : ingestAudioFrame s now = { s with stateLastActivityAt := now } := by
    unfold ingestAudioFrame; rw [hvad]; simp
  rw [hing]
  have happ : appendAudio cfg s.wsOpen frame =
      [OutMsg.inputAudioAppend
        (resampleIfNeeded cfg.audioSampleRate cfg.targetSampleRate frame)] := by
    unfold appendAudio sendJson
    rw [if_neg hne, hws]
    simp
  cases hss : s.speechStartedAt with
  | none => simp [happ]
  | some t0 =>
      by_cases hfc : cfg.forceCommitAfterSec < now - t0
      · simp [happ, hfc]
      · simp [happ, hfc]

/-- Witness for the amended C5: a fresh connected session fed a one-sample
frame at time 3. -/
theorem audio_step_appends_witness :
    OutMsg.inputAudioAppend
        (resampleIfNeeded cfg16k.audioSampleRate cfg16k.targetSampleRate [7]) ∈
      (audioLoopStep cfg16k (initialSessionState 0) 3 [7]).2 ∧
    (audioLoopStep cfg16k (initialSessionState 0) 3 [7]).1.stateLastActivityAt
      = 3 :=
  audio_step_appends_and_updates_activity cfg16k (initialSessionState 0) 3 [7]
    rfl rfl rfl (by decide)

/-- A session owning every teardown resource. -/
def allResources : Resources :=
  { recvTask := true, monitorTask := true, wsConn := true, playerTask := true
    outputAttached := true, outputOpen := true, running := true }

/-- The failure oracle where only closing the websocket raises. -/
def wsCloseFailure : CloseFailures :=
  { recvAwaitRaises := false, monitorAwaitRaises := false, wsCloseRaises := true
    playerAwaitRaises := false, outputCloseRaises := false }

/-- **C6 counterexample.** When the connection-close step of `close()`
raises, the exception escapes and the playback task and the audio output
stream are left un-torn-down: the teardown has no exception barrier. -/
theorem close_not_exception_safe :
    (closeSession wsCloseFailure allResources).2 = true ∧
    (closeSession wsCloseFailure allResources).1.playerTask = true ∧
    (closeSession wsCloseFailure allResources).1.outputOpen = true ∧
    (closeSession wsCloseFailure allResources).1.running = true := by
  decide

/-- **C6 amended.** When no teardown step raises, `close()` cancels both
loops and the playback task, closes the connection, releases the audio
output (when one is attached) and clears `running`; and it is idempotent —
a second call on the resulting state returns it unchanged.  The
exception-safety half of the original claim fails: a raising step skips
all later teardown steps. -/
theorem close_idempotent_and_full_teardown (r : Resources) :
    (closeSession noCloseFailures r).2 = false ∧
    (closeSession noCloseFailures r).1.recvTask = false ∧
    (closeSession noCloseFailures r).1.monitorTask = false ∧
    (closeSession noCloseFailures r).1.wsConn = false ∧
    (closeSession noCloseFailures r).1.playerTask = false ∧
    (closeSession noCloseFailures r).1.running = false ∧
    (r.outputAttached = true →
      (closeSession noCloseFailures r).1.outputOpen = false) ∧
    closeSession noCloseFailures (closeSession noCloseFailures r).1 =
      ((closeSession noCloseFailures r).1, false) := by
  obtain ⟨a, b, c, d, e, f, g⟩ := r
  cases a <;> cases b <;> cases c <;> cases d <;> cases e <;> cases f <;>
    cases g <;> decide

/-- Witness for the amended C6: a fully-resourced session closes cleanly
and a second close is a no-op. -/
theorem close_idempotent_witness :
    (closeSession noCloseFailures allResources).1.outputOpen = false ∧
    closeSession noCloseFailures (closeSession noCloseFailures allResources).1 =
      ((closeSession noCloseFailures allResources).1, false) :=
  ⟨(close_idempotent_and_full_teardown allResources).2.2.2.2.2.2.1 rfl,
   (close_idempotent_and_full_teardown allResources).2.2.2.2.2.2.2⟩

/-- `findEventByTitle` misses exactly when no stored event bears the
title. -/
theorem findEventByTitle_eq_none (mem : MemoryEvents) (title : String)
    (h : ∀ p ∈ mem, p.2.title ≠ title) :
    findEventByTitle mem title = none := by
  induction mem with
  | nil => rfl
  | cons hd tl ih =>
      obtain ⟨k0, v0⟩ := hd
      unfold findEventByTitle
      rw [if_neg (h (k0, v0) (List.mem_cons_self _ _))]
      exact ih fun p hp => h p (List.mem_cons_of_mem _ hp)

/-- **C7.** Deleting a title that matches no stored event leaves the
calendar untouched and streams exactly the not-found utterance (the
handler is total — no error path exists). -/
theorem delete_missing_title_is_noop (mem : MemoryEvents) (title : String)
    (h : ∀ p ∈ mem, p.2.title ≠ title) :
    handleDeleteCall mem title =
      (mem, ["予定「" ++ title ++ "」が見つかりませんでした。"]) := by
  unfold handleDeleteCall
  rw [findEventByTitle_eq_none mem title h]

/-- Witness for C7: deleting a title absent from a one-event store. -/
theorem delete_missing_title_witness :
    handleDeleteCall sampleMem "ランチ" =
      (sampleMem, ["予定「ランチ」が見つかりませんでした。"]) :=
  delete_missing_title_is_noop sampleMem "ランチ" (by decide)

/-- **C8 counterexample.** A list call whose date argument is the empty
string — which does not parse as `YYYY-MM-DD` — is routed by Python
truthiness (`if args.date:`) to the upcoming branch: it queries the
calendar and does not emit the format-error utterance. -/
theorem list_empty_date_queries_upcoming :
    parseDateYMD "" = none ∧
    (handleListCall sampleMem 0 (some "")).1 = [CalQuery.upcoming] ∧
    "日付の形式が正しくありません。" ∉ (handleListCall sampleMem 0 (some "")).2 := by
  refine ⟨by decide, rfl, by decide⟩

/-- **C8 amended.** For every list call whose date argument is a non-empty
string that does not parse as `YYYY-MM-DD`, dispatch performs no calendar
query and streams exactly the format-error utterance (never raising); an
empty date string is instead treated like an absent date and lists
upcoming events. -/
theorem list_invalid_date_refused (mem : MemoryEvents) (now : Int)
    (d : String) (hne : d ≠ "") (hp : parseDateYMD d = none) :
    handleListCall mem now (some d) = ([], ["日付の形式が正しくありません。"]) := by
  show (if d = "" then
      ([CalQuery.upcoming], [listMessage "今後" (listUpcoming mem now)])
    else
      match parseDateYMD d with
      | some (y, m, dd) =>
          let startT := daysFromCivil (y : Int) (m : Int) (dd : Int) * 1440
          let endT := startT + 1440
          ([CalQuery.range startT endT],
           [listMessage d (listEventsInRange mem startT endT)])
      | none => ([], ["日付の形式が正しくありません。"])) =
    ([], ["日付の形式が正しくありません。"])
  rw [if_neg hne, hp]

/-- Witness for the amended C8: a slash-formatted date. -/
theorem list_invalid_date_witness :
    handleListCall sampleMem 0 (some "2024/01/01") =
      ([], ["日付の形式が正しくありません。"]) :=
  list_invalid_date_refused sampleMem 0 "2024/01/01" (by decide) (by decide)

/-- Inserting under a fresh key appends the binding. -/
theorem dictInsert_fresh (mem : MemoryEvents) (k : Nat) (v : CalendarEvent)
    (h : dictLookup mem k = none) : dictInsert mem k v = mem ++ [(k, v)] := by
  induction mem with
  | nil => rfl
  | cons hd tl ih =>
      obtain ⟨k0, v0⟩ := hd
      unfold dictLookup at h
      unfold dictInsert
      by_cases hk : k0 = k
      · rw [if_pos hk] at h
        exact absurd h (by simp)
      · rw [if_neg hk] at h
        rw [if_neg hk, ih h]
        rfl

/-- **C9.** A schedule tool call on a fresh event id appends exactly one
event, whose title and start echo the arguments, and streams exactly one
confirmation utterance. -/
theorem schedule_creates_one_event (cfg : CalendarConfig) (mem : MemoryEvents)
    (title : String) (scheduledAt : Int) (remind : Option Int) (eid : Nat)
    (hfresh : dictLookup mem eid = none) :
    (handleReminderCall cfg mem title scheduledAt remind eid).1 =
      mem ++ [(eid, (upsertEvent cfg mem title scheduledAt 30 remind eid).2)] ∧
    (upsertEvent cfg mem title scheduledAt 30 remind eid).2.title = title ∧
    (upsertEvent cfg mem title scheduledAt 30 remind eid).2.start = scheduledAt ∧
    (handleReminderCall cfg mem title scheduledAt remind eid).2 =
      ["予定「" ++ title ++ "」を登録しました。"] := by
  refine ⟨?_, rfl, rfl, rfl⟩
  exact dictInsert_fresh mem eid _ hfresh

/-- Witness for C9: scheduling into the sample store under fresh id 2. -/
theorem schedule_creates_one_event_witness :
    (handleReminderCall { reminderMinutesDefault := 10 } sampleMem "歯医者" 500
        (some 5) 2).1 =
      sampleMem ++ [(2, (upsertEvent { reminderMinutesDefault := 10 } sampleMem
        "歯医者" 500 30 (some 5) 2).2)] ∧
    (handleReminderCall { reminderMinutesDefault := 10 } sampleMem "歯医者" 500
        (some 5) 2).2 = ["予定「歯医者」を登録しました。"] :=
  ⟨(schedule_creates_one_event { reminderMinutesDefault := 10 } sampleMem
      "歯医者" 500 (some 5) 2 (by decide)).1,
   (schedule_creates_one_event { reminderMinutesDefault := 10 } sampleMem
      "歯医者" 500 (some 5) 2 (by decide)).2.2.2⟩

/-- The inserted binding is found under its key. -/
theorem dictLookup_dictInsert_self (mem : MemoryEvents) (k : Nat)
    (v : CalendarEvent) : dictLookup (dictInsert mem k v) k = some v := by
  induction mem with
  | nil => simp [dictInsert, dictLookup]
  | cons hd tl ih =>
      obtain ⟨k0, v0⟩ := hd
      by_cases hk : k0 = k
      · simp [dictInsert, dictLookup, hk]
      · simp [dictInsert, dictLookup, hk, ih]

/-- **C10.** `upsert_event` returns an event ending `duration_minutes`
after its start and stored under its id; the reminder is the override when
one is supplied and non-zero, and otherwise — including for an explicit
override of `0` — the configured default. -/
theorem upsert_event_contract (cfg : CalendarConfig) (mem : MemoryEvents)
    (title : String) (start durationMinutes : Int)
    (reminderOverride : Option Int) (eid : Nat) :
    (upsertEvent cfg mem title start durationMinutes reminderOverride
        eid).2.endTime = start + durationMinutes ∧
    dictLookup (upsertEvent cfg mem title start durationMinutes
        reminderOverride eid).1 eid =
      some (upsertEvent cfg mem title start durationMinutes reminderOverride
        eid).2 ∧
    (∀ r, reminderOverride = some r → r ≠ 0 →
      (upsertEvent cfg mem title start durationMinutes reminderOverride
        eid).2.reminderMinutes = r) ∧
    ((reminderOverride = none ∨ reminderOverride = some 0) →
      (upsertEvent cfg mem title start durationMinutes reminderOverride
        eid).2.reminderMinutes = cfg.reminderMinutesDefault) := by
  refine ⟨rfl, dictLookup_dictInsert_self mem eid _, ?_, ?_⟩
  · rintro r rfl hr
    simp [upsertEvent, hr]
  · rintro (rfl | rfl) <;> simp [upsertEvent]

/-- Witness for C10: an upsert with an explicit zero override gets the
default reminder, an end 45 minutes after start, and is stored under its
id. -/
theorem upsert_event_contract_witness :
    (upsertEvent { reminderMinutesDefault := 10 } [] "会議" 100 45 (some 0)
        7).2.endTime = 100 + 45 ∧
    (upsertEvent { reminderMinutesDefault := 10 } [] "会議" 100 45 (some 0)
        7).2.reminderMinutes = 10 ∧
    dictLookup (upsertEvent { reminderMinutesDefault := 10 } [] "会議" 100 45
        (some 0) 7).1 7 =
      some (upsertEvent { reminderMinutesDefault := 10 } [] "会議" 100 45
        (some 0) 7).2 :=
  ⟨(upsert_event_contract { reminderMinutesDefault := 10 } [] "会議" 100 45
      (some 0) 7).1,
   (upsert_event_contract { reminderMinutesDefault := 10 } [] "会議" 100 45
      (some 0) 7).2.2.2 (Or.inr rfl),
   (upsert_event_contract { reminderMinutesDefault := 10 } [] "会議" 100 45
      (some 0) 7).2.1⟩

end ChappyAI
